import Mathlib

/-!
Shallow embedding of `archive/augmentos_cloud_library/example_usage.py`.

The file defines a minimal example application over an external `AppClient`
SDK.  The SDK itself is an external collaborator, so its operations are
modelled by the trace of effects they produce (client construction, callback
registration, printing, sending a reference card, starting the server,
sleeping); the visible client state is the record of its construction
parameters together with the list of registered callbacks.

Python dictionary payloads handed to the callbacks are modelled by `PyVal`;
subscripting `data[k]` follows Python semantics: a missing key on a
dictionary raises `KeyError`, while subscripting a non-dictionary value by a
string key raises `TypeError`.
-/

/-- Values a callback payload may hold: strings, integers and
string-keyed dictionaries (association lists, in insertion order). -/
inductive PyVal where
  | str : String → PyVal
  | int : Int → PyVal
  | dict : List (String × PyVal) → PyVal

/-- Errors that subscripting a `PyVal` may raise, following Python:
`KeyError` for a missing dictionary key, `TypeError` for subscripting a
non-dictionary value by a string. -/
inductive PyError where
  | keyError : String → PyError
  | typeError : PyError

/-- Evaluation of the Python expression `v[k]` for a string key `k`. -/
def PyVal.subscript : PyVal → String → Except PyError PyVal
  | PyVal.dict kvs, k =>
      match kvs.lookup k with
      | some v => Except.ok v
      | none => Except.error (PyError.keyError k)
  | _, _ => Except.error PyError.typeError

mutual
/-- Rendering of a `PyVal` as Python would print it inside an f-string. -/
def PyVal.render : PyVal → String
  | PyVal.str s => "\x27" ++ s ++ "\x27"
  | PyVal.int n => toString n
  | PyVal.dict kvs => "\x7b" ++ PyVal.renderEntries kvs ++ "\x7d"

/-- Rendering of the comma-separated entries of a dictionary. -/
def PyVal.renderEntries : List (String × PyVal) → String
  | [] => ""
  | [(k, v)] => "\x27" ++ k ++ "\x27: " ++ PyVal.render v
  | (k, v) :: rest =>
      "\x27" ++ k ++ "\x27: " ++ PyVal.render v ++ ", " ++ PyVal.renderEntries rest
end

/-- The four event types for which `ExampleApp.__init__` registers a
callback on the client. -/
inductive EventType where
  | transcript : EventType
  | location : EventType
  | camera : EventType
  | other : EventType

/-- Names of the bound `ExampleApp` methods that can be registered as
callback handlers on the client. -/
inductive Callback where
  | on_transcript : Callback
  | on_location : Callback
  | on_camera : Callback
  | on_other : Callback

/-- The keyword arguments of the `AppClient` constructor. -/
structure AppClientParams where
  app_id : String
  app_name : String
  app_description : String
  server_url : String
  subscriptions : List String

/-- Observable interactions of the example application with the outside
world: constructing an `AppClient`, registering a callback for an event
type, printing a line, sending a reference card, starting the embedded
server, and sleeping for a number of seconds. -/
inductive Effect where
  | construct : AppClientParams → Effect
  | register : EventType → Callback → Effect
  | printLine : String → Effect
  | sendReferenceCard : PyVal → PyVal → PyVal → Effect
  | startServer : Effect
  | sleep : Nat → Effect

/-- True exactly on callback-registration effects. -/
def Effect.isRegister : Effect → Bool
  | Effect.register _ _ => true
  | _ => false

/-- True exactly on client-construction effects. -/
def Effect.isConstruct : Effect → Bool
  | Effect.construct _ => true
  | _ => false

/-- True exactly on reference-card-sending effects. -/
def Effect.isSendReferenceCard : Effect → Bool
  | Effect.sendReferenceCard _ _ _ => true
  | _ => false

/-- The visible state of an `AppClient`: its construction parameters and
the callbacks registered on it so far, in registration order. -/
structure AppClient where
  params : AppClientParams
  callbacks : List (EventType × Callback)

/-- Construction `AppClient(...)`: a fresh client with no callbacks,
emitting a construction effect. -/
def AppClient.new (p : AppClientParams) : AppClient × List Effect :=
  ({ params := p, callbacks := [] }, [Effect.construct p])

/-- The SDK call `client.on_transcript_received(cb)`. -/
def AppClient.on_transcript_received (c : AppClient) (cb : Callback) :
    AppClient × List Effect :=
  ({ c with callbacks := c.callbacks ++ [(EventType.transcript, cb)] },
   [Effect.register EventType.transcript cb])

/-- The SDK call `client.on_location_received(cb)`. -/
def AppClient.on_location_received (c : AppClient) (cb : Callback) :
    AppClient × List Effect :=
  ({ c with callbacks := c.callbacks ++ [(EventType.location, cb)] },
   [Effect.register EventType.location cb])

/-- The SDK call `client.on_camera_received(cb)`. -/
def AppClient.on_camera_received (c : AppClient) (cb : Callback) :
    AppClient × List Effect :=
  ({ c with callbacks := c.callbacks ++ [(EventType.camera, cb)] },
   [Effect.register EventType.camera cb])

/-- The SDK call `client.on_other_received(cb)`. -/
def AppClient.on_other_received (c : AppClient) (cb : Callback) :
    AppClient × List Effect :=
  ({ c with callbacks := c.callbacks ++ [(EventType.other, cb)] },
   [Effect.register EventType.other cb])

/-- The SDK call `client.start()`: starts the embedded server; the visible
client state is unchanged. -/
def AppClient.start (c : AppClient) : AppClient × List Effect :=
  (c, [Effect.startServer])

/-- The state of an `ExampleApp`: its single field `self.client`. -/
structure ExampleApp where
  client : AppClient

/-- The keyword arguments `ExampleApp.__init__` passes to `AppClient`. -/
def exampleClientParams : AppClientParams :=
  { app_id := "com.exampletpa.example"
    app_name := "ExampleApp"
    app_description := "An example app for AugmentOS"
    server_url := "http://localhost:8080"
    subscriptions := ["*"] }

/-- The constructor `ExampleApp.__init__`: builds the `AppClient` with the
literal keyword arguments of the source, stores it in `self.client`, and
registers the four callbacks in source order.  Returns the constructed
application together with the trace of effects. -/
def ExampleApp.init : ExampleApp × List Effect :=
  let r0 := AppClient.new exampleClientParams
  let r1 := r0.1.on_transcript_received Callback.on_transcript
  let r2 := r1.1.on_location_received Callback.on_location
  let r3 := r2.1.on_camera_received Callback.on_camera
  let r4 := r3.1.on_other_received Callback.on_other
  ({ client := r4.1 }, r0.2 ++ r1.2 ++ r2.2 ++ r3.2 ++ r4.2)

/-- The method `ExampleApp.on_transcript(self, data)`: prints the payload,
evaluates `data[\x27data\x27][\x27text\x27]`, then awaits
`self.client.send_reference_card(data[\x27user_id\x27], "ExampleTitle",
transcript_text)`.  Returns the (unchanged) application state, the trace of
effects of the run, and either `()` (Python `None`) or the raised error. -/
def ExampleApp.on_transcript (app : ExampleApp) (data : PyVal) :
    ExampleApp × List Effect × Except PyError Unit :=
  let printed := Effect.printLine
    ("[ExampleApp on_transcript] Data received in callback: " ++ data.render)
  match data.subscript "data" with
  | Except.error e => (app, [printed], Except.error e)
  | Except.ok d =>
      match d.subscript "text" with
      | Except.error e => (app, [printed], Except.error e)
      | Except.ok transcript_text =>
          match data.subscript "user_id" with
          | Except.error e => (app, [printed], Except.error e)
          | Except.ok uid =>
              (app,
               [printed,
                Effect.sendReferenceCard uid (PyVal.str "ExampleTitle") transcript_text],
               Except.ok ())

/-- The method `ExampleApp.on_location(self, data)`: prints the payload and
returns `None`. -/
def ExampleApp.on_location (app : ExampleApp) (data : PyVal) :
    ExampleApp × List Effect × Unit :=
  (app,
   [Effect.printLine ("[ExampleApp on_location] Data received in callback: " ++ data.render)],
   ())

/-- The method `ExampleApp.on_camera(self, data)`: prints the payload and
returns `None`. -/
def ExampleApp.on_camera (app : ExampleApp) (data : PyVal) :
    ExampleApp × List Effect × Unit :=
  (app,
   [Effect.printLine ("[ExampleApp on_camera] Data received in callback: " ++ data.render)],
   ())

/-- The method `ExampleApp.on_other(self, data)`: prints the payload and
returns `None`. -/
def ExampleApp.on_other (app : ExampleApp) (data : PyVal) :
    ExampleApp × List Effect × Unit :=
  (app,
   [Effect.printLine ("[ExampleApp on_other] Data received in callback: " ++ data.render)],
   ())

/-- The method `ExampleApp.start(self)`: calls `self.client.start()` and
returns `None`. -/
def ExampleApp.start (app : ExampleApp) : ExampleApp × List Effect × Unit :=
  let r := app.client.start
  ({ app with client := r.1 }, r.2, ())

/-- The loop condition of `while True:` in `main`. -/
def loopCond : Bool := true

/-- One iteration of the idle loop of `main`, carrying the live
`example_app` binding and the number of completed iterations.  `none` would
mean the loop terminates; otherwise the iteration awaits
`asyncio.sleep(3600)` and continues. -/
def mainIter (app : ExampleApp) (completed : Nat) :
    Option (ExampleApp × Nat × Effect) :=
  if loopCond then some (app, completed + 1, Effect.sleep 3600) else none

/-- The setup part of `main()`: `example_app = ExampleApp()` followed by
`example_app.start()`, before the idle loop is entered. -/
def main_setup : ExampleApp × List Effect :=
  let r := ExampleApp.init
  let s := r.1.start
  (s.1, r.2 ++ s.2.1)

/-! ## Helper lemmas -/

/-- The `on_transcript` method never changes the application state, in any
branch of its body. -/
theorem on_transcript_state (app : ExampleApp) (data : PyVal) :
    (ExampleApp.on_transcript app data).1 = app := by
  unfold ExampleApp.on_transcript
  split
  · rfl
  · split
    · rfl
    · split <;> rfl

/-! ## Claim theorems -/

/-- C1: Constructing an `ExampleApp` registers exactly four callback
handlers on its `AppClient`, one per event type and each exactly once:
transcript with `ExampleApp.on_transcript`, location with
`ExampleApp.on_location`, camera with `ExampleApp.on_camera`, other with
`ExampleApp.on_other`, in that order, and no other callbacks. -/
theorem init_registers_exactly_four_callbacks :
    (ExampleApp.init.2.filter Effect.isRegister)
      = [Effect.register EventType.transcript Callback.on_transcript,
         Effect.register EventType.location Callback.on_location,
         Effect.register EventType.camera Callback.on_camera,
         Effect.register EventType.other Callback.on_other]
  ∧ ExampleApp.init.1.client.callbacks
      = [(EventType.transcript, Callback.on_transcript),
         (EventType.location, Callback.on_location),
         (EventType.camera, Callback.on_camera),
         (EventType.other, Callback.on_other)] :=
  ⟨rfl, rfl⟩

/-- C2: Constructing an `ExampleApp` instantiates exactly one `AppClient`,
with app_id "com.exampletpa.example", app_name "ExampleApp",
app_description "An example app for AugmentOS", server_url
"http://localhost:8080" and subscriptions ["*"], and stores that client in
the app's `client` field. -/
theorem init_constructs_exactly_one_client :
    (ExampleApp.init.2.filter Effect.isConstruct)
      = [Effect.construct
          { app_id := "com.exampletpa.example"
            app_name := "ExampleApp"
            app_description := "An example app for AugmentOS"
            server_url := "http://localhost:8080"
            subscriptions := ["*"] }]
  ∧ ExampleApp.init.1.client.params
      = { app_id := "com.exampletpa.example"
          app_name := "ExampleApp"
          app_description := "An example app for AugmentOS"
          server_url := "http://localhost:8080"
          subscriptions := ["*"] } :=
  ⟨rfl, rfl⟩

/-- C3: For every constructed `ExampleApp`, `ExampleApp.start` invokes
`AppClient.start` exactly once (the single `startServer` effect), performs
no other effect, changes no field of the app, and returns `None`. -/
theorem start_invokes_client_start_once (app : ExampleApp) :
    ExampleApp.start app = (app, [Effect.startServer], ()) :=
  rfl

/-- C4: After setup, the main loop idles forever: from any number of
completed iterations the loop takes another iteration (it is never in a
terminal state), and the iteration consists only of awaiting
`asyncio.sleep(3600)`, so `main` never returns. -/
theorem main_idles_forever (app : ExampleApp) (n : Nat) :
    mainIter app n = some (app, n + 1, Effect.sleep 3600)
  ∧ (mainIter app n).isSome = true :=
  ⟨rfl, rfl⟩

/-- C5: The application keeps no state and persists no data: the callbacks
`on_location`, `on_camera` and `on_other` leave the `ExampleApp` (hence
also its client) unchanged, produce only one printed line, and return
`None`. -/
theorem simple_callbacks_are_stateless (app : ExampleApp) (data : PyVal) :
    ExampleApp.on_location app data
      = (app,
         [Effect.printLine
            ("[ExampleApp on_location] Data received in callback: " ++ data.render)],
         ())
  ∧ ExampleApp.on_camera app data
      = (app,
         [Effect.printLine
            ("[ExampleApp on_camera] Data received in callback: " ++ data.render)],
         ())
  ∧ ExampleApp.on_other app data
      = (app,
         [Effect.printLine
            ("[ExampleApp on_other] Data received in callback: " ++ data.render)],
         ()) :=
  ⟨rfl, rfl, rfl⟩

/-- C8: The `client` field is assigned once, in the constructor, and every
later operation (`start`, the four callbacks, and the main loop) leaves it
referring to that same `AppClient`. -/
theorem client_assigned_once_then_preserved (app : ExampleApp) (data : PyVal) (n : Nat) :
    ExampleApp.init.1.client = (ExampleApp.init.1).client
  ∧ (ExampleApp.start app).1.client = app.client
  ∧ (ExampleApp.on_transcript app data).1.client = app.client
  ∧ (ExampleApp.on_location app data).1.client = app.client
  ∧ (ExampleApp.on_camera app data).1.client = app.client
  ∧ (ExampleApp.on_other app data).1.client = app.client
  ∧ Option.map (fun r => r.1.client) (mainIter app n) = some app.client := by
  refine ⟨rfl, rfl, ?_, rfl, rfl, rfl, rfl⟩
  rw [on_transcript_state]

/-- C6: For every input dictionary `data` containing key user_id and key
data whose value contains key text, `on_transcript` sends exactly one
reference card through the client: recipient `data[user_id]`, title exactly
"ExampleTitle", body exactly `data[data][text]` unchanged (and the only
other effect is the printed line). -/
theorem on_transcript_sends_one_reference_card (app : ExampleApp)
    (kvs dkvs : List (String × PyVal)) (uid t : PyVal)
    (hdata : kvs.lookup "data" = some (PyVal.dict dkvs))
    (htext : dkvs.lookup "text" = some t)
    (huser : kvs.lookup "user_id" = some uid) :
    ExampleApp.on_transcript app (PyVal.dict kvs)
      = (app,
         [Effect.printLine
            ("[ExampleApp on_transcript] Data received in callback: "
               ++ (PyVal.dict kvs).render),
          Effect.sendReferenceCard uid (PyVal.str "ExampleTitle") t],
         Except.ok ()) := by
  unfold ExampleApp.on_transcript
  simp only [PyVal.subscript, hdata, htext, huser]

/-- Witness for C6 at a concrete payload with user_id "u1" and transcript
text "hello". -/
theorem on_transcript_sends_one_reference_card_witness :
    ExampleApp.on_transcript ExampleApp.init.1
        (PyVal.dict [("user_id", PyVal.str "u1"),
                     ("data", PyVal.dict [("text", PyVal.str "hello")])])
      = (ExampleApp.init.1,
         [Effect.printLine
            ("[ExampleApp on_transcript] Data received in callback: "
               ++ (PyVal.dict [("user_id", PyVal.str "u1"),
                    ("data", PyVal.dict [("text", PyVal.str "hello")])]).render),
          Effect.sendReferenceCard (PyVal.str "u1") (PyVal.str "ExampleTitle")
            (PyVal.str "hello")],
         Except.ok ()) :=
  on_transcript_sends_one_reference_card ExampleApp.init.1
    [("user_id", PyVal.str "u1"), ("data", PyVal.dict [("text", PyVal.str "hello")])]
    [("text", PyVal.str "hello")] (PyVal.str "u1") (PyVal.str "hello")
    rfl rfl rfl

/-- The payload `\x7b"data": 42, "user_id": "u1"\x7d`: it is a dictionary
whose data value (the integer 42) lacks key text, yet subscripting it
raises a `TypeError`, not a `KeyError`. -/
def typeErrorPayload : PyVal :=
  PyVal.dict [("data", PyVal.int 42), ("user_id", PyVal.str "u1")]

/-- C7 counterexample: on the dictionary `typeErrorPayload`, whose data
value lacks key text (the integer 42 has no keys), `on_transcript` raises
`TypeError`, not a `KeyError` as the claim states. -/
theorem on_transcript_keyerror_counterexample :
    (ExampleApp.on_transcript ExampleApp.init.1 typeErrorPayload).2.2
        = Except.error PyError.typeError
  ∧ ¬ ∃ k, (ExampleApp.on_transcript ExampleApp.init.1 typeErrorPayload).2.2
        = Except.error (PyError.keyError k) := by
  have h1 : (ExampleApp.on_transcript ExampleApp.init.1 typeErrorPayload).2.2
      = Except.error PyError.typeError := rfl
  refine ⟨h1, ?_⟩
  rintro ⟨k, hk⟩
  rw [h1] at hk
  exact PyError.noConfusion (Except.error.inj hk)

/-- C7 (amended): for every dictionary payload lacking key data, or whose
data value is itself a dictionary lacking key text, or whose data value is
a dictionary with key text but the payload lacks key user_id, the
`on_transcript` callback raises a `KeyError` after printing the received
data; when the data value is present but is not a dictionary, a `TypeError`
is raised instead.  In every failing run the client-visible effect is only
the printed line: no reference card is sent. -/
theorem on_transcript_missing_key_raises (app : ExampleApp)
    (kvs : List (String × PyVal))
    (h : kvs.lookup "data" = none
       ∨ (∃ dkvs, kvs.lookup "data" = some (PyVal.dict dkvs)
            ∧ (dkvs.lookup "text" = none ∨ kvs.lookup "user_id" = none))
       ∨ (∃ v, kvs.lookup "data" = some v ∧ ∀ dkvs, v ≠ PyVal.dict dkvs)) :
    ∃ e, ExampleApp.on_transcript app (PyVal.dict kvs)
        = (app,
           [Effect.printLine
              ("[ExampleApp on_transcript] Data received in callback: "
                 ++ (PyVal.dict kvs).render)],
           Except.error e)
      ∧ ((kvs.lookup "data" = none
            ∨ ∃ dkvs, kvs.lookup "data" = some (PyVal.dict dkvs))
           → ∃ k, e = PyError.keyError k)
      ∧ ((∃ v, kvs.lookup "data" = some v ∧ ∀ dkvs, v ≠ PyVal.dict dkvs)
           → e = PyError.typeError) := by
  rcases h with hd | ⟨dkvs, hd, htail⟩ | ⟨v, hd, hnd⟩
  · refine ⟨PyError.keyError "data", ?_, fun _ => ⟨"data", rfl⟩, ?_⟩
    · unfold ExampleApp.on_transcript
      simp only [PyVal.subscript, hd]
    · rintro ⟨v, hv, -⟩
      rw [hd] at hv
      exact Option.noConfusion hv
  · have hkey : ∃ k, ExampleApp.on_transcript app (PyVal.dict kvs)
        = (app,
           [Effect.printLine
              ("[ExampleApp on_transcript] Data received in callback: "
                 ++ (PyVal.dict kvs).render)],
           Except.error (PyError.keyError k)) := by
      cases htext : dkvs.lookup "text" with
      | none =>
          refine ⟨"text", ?_⟩
          unfold ExampleApp.on_transcript
          simp only [PyVal.subscript, hd, htext]
      | some t =>
          have huser : kvs.lookup "user_id" = none := by
            rcases htail with h1 | h1
            · rw [htext] at h1
              exact Option.noConfusion h1
            · exact h1
          refine ⟨"user_id", ?_⟩
          unfold ExampleApp.on_transcript
          simp only [PyVal.subscript, hd, htext, huser]
    obtain ⟨k, hk⟩ := hkey
    refine ⟨PyError.keyError k, hk, fun _ => ⟨k, rfl⟩, ?_⟩
    rintro ⟨v, hv, hnd⟩
    rw [hd] at hv
    exact absurd (Option.some.inj hv).symm (hnd dkvs)
  · refine ⟨PyError.typeError, ?_, ?_, fun _ => rfl⟩
    · unfold ExampleApp.on_transcript
      cases v with
      | str s => simp only [PyVal.subscript, hd]
      | int n => simp only [PyVal.subscript, hd]
      | dict dkvs => exact absurd rfl (hnd dkvs)
    · rintro (h1 | ⟨dkvs, h1⟩)
      · rw [hd] at h1
        exact Option.noConfusion h1
      · rw [hd] at h1
        exact absurd (Option.some.inj h1) (hnd dkvs)

/-- Witness for the amended C7 at the empty dictionary, which lacks key
data: the callback prints the payload and raises an error. -/
theorem on_transcript_missing_key_raises_witness :
    ∃ e, ExampleApp.on_transcript ExampleApp.init.1 (PyVal.dict [])
        = (ExampleApp.init.1,
           [Effect.printLine
              ("[ExampleApp on_transcript] Data received in callback: "
                 ++ (PyVal.dict []).render)],
           Except.error e) := by
  obtain ⟨e, he, -, -⟩ :=
    on_transcript_missing_key_raises ExampleApp.init.1 [] (Or.inl rfl)
  exact ⟨e, he⟩
